import Mathlib

/-
Verification of the CEG Connect backend route handlers.

Each definition below is a shallow embedding of a route handler or helper
from the repository's Express backend:
  * OTP issue/verify             (backend/routes/auth.js)
  * community follow and posting (backend/routes/communities.js)
  * group leave                  (backend/routes/groups.js)
  * feed assembly                (backend/routes/posts.js)
  * profile update               (backend/routes/users.js)

Modelling conventions:
  * JavaScript strings are `String`; a missing/`undefined` request field is
    the empty string where the code only tests falsiness, and `Option` where
    the value itself is stored.
  * Times (`Date.now()`, Firestore timestamps) are naturals (OTP clock) or
    integers (post timestamps) counting milliseconds.
  * `Math.random()` is an oracle parameter: the caller supplies the value
    `k = Math.floor(Math.random() * 900000) ∈ [0, 900000)`.
  * The in-memory OTP `Map` is a function `String → Option OtpRecord`.
  * Firestore collections are lists of documents; `arrayUnion`/`arrayRemove`
    and `increment` are modelled with their documented semantics.
  * `await`-able collaborator failures (mail transport, identity provider)
    are boolean/optional oracle parameters.
-/

namespace Ceg

/-! ### OTP issuer state (auth.js) -/

/-- One entry of the in-memory `otpStorage` map: `{otp, expiresAt, attempts}`. -/
structure OtpRecord where
  otp : String
  expiresAt : Nat
  attempts : Nat
deriving DecidableEq, Repr

/-- The `otpStorage` map, keyed by email. -/
def OtpStore : Type := String → Option OtpRecord

/-- `otpStorage.set(email, v)`. -/
def OtpStore.set (s : OtpStore) (k : String) (v : OtpRecord) : OtpStore :=
  fun k' => if k' = k then some v else s k'

/-- `otpStorage.delete(email)`. -/
def OtpStore.del (s : OtpStore) (k : String) : OtpStore :=
  fun k' => if k' = k then none else s k'

/-- `otpStorage.get(email)`. -/
def OtpStore.get (s : OtpStore) (k : String) : Option OtpRecord := s k

/-- An empty `otpStorage`. -/
def emptyStore : OtpStore := fun _ => none

/-- `generateOTP`: `Math.floor(100000 + Math.random() * 900000).toString()`.
Since `Math.random() ∈ [0,1)`, the floored value is `100000 + k` with
`k = Math.floor(Math.random() * 900000) ∈ [0, 900000)`; `k` is the oracle. -/
def generateOTP (k : Nat) : String :=
  Nat.repr (100000 + k)

/-- One character class of the validation regex `^[^\s@]+@[^\s@]+\.[^\s@]+$`:
anything that is neither whitespace nor `@`. -/
def nonSpecial (c : Char) : Bool :=
  !(c.isWhitespace || c == '@')

/-- `emailRegex.test(email)` for `^[^\s@]+@[^\s@]+\.[^\s@]+$`: the string is
`lp ++ "@" ++ dom` where `lp` (everything before the first `@`) and `dom` are
nonempty and consist of non-whitespace non-`@` characters (so there is exactly
one `@`), and `dom` carries a `.` with at least one character on each side. -/
def validEmail (s : String) : Bool :=
  match s.data.dropWhile (fun c => c != '@') with
  | '@' :: dom =>
    let lp := s.data.takeWhile (fun c => c != '@')
    !lp.isEmpty && !dom.isEmpty && lp.all nonSpecial && dom.all nonSpecial
      && (dom.drop 1).dropLast.contains '.'
  | _ => false

/-- Response body of the auth routes: HTTP status plus the JSON fields that
occur across the handlers (`message`, optionally `expiresIn`, `token`). -/
structure OtpResponse where
  status : Nat
  message : String
  expiresIn : Option Nat
  token : Option String
deriving DecidableEq, Repr

/-- `POST /auth/send-otp`.  `mailOk` tells whether `transporter.sendMail`
resolves; the store write happens before the mail dispatch either way. -/
def sendOtp (store : OtpStore) (now : Nat) (email : String) (k : Nat)
    (mailOk : Bool) : OtpStore × OtpResponse :=
  if !validEmail email then
    (store, ⟨400, "Please use a valid email address", none, none⟩)
  else
    let store' := store.set email ⟨generateOTP k, now + 5 * 60 * 1000, 0⟩
    if mailOk then
      (store', ⟨200, "OTP sent successfully", some 300, none⟩)
    else
      (store', ⟨500, "Failed to send OTP. Please try again.", none, none⟩)

/-- `POST /auth/verify-otp`.  `auth` is the identity-provider oracle:
`some token` means lookup/create plus `createCustomToken` succeed and
produce `token`; `none` means that stage throws. -/
def verifyOtp (store : OtpStore) (now : Nat) (email otp : String)
    (auth : Option String) : OtpStore × OtpResponse :=
  if email = "" ∨ otp = "" then
    (store, ⟨400, "Email and OTP are required", none, none⟩)
  else
    match store.get email with
    | none => (store, ⟨400, "OTP not found or expired", none, none⟩)
    | some r =>
      if r.expiresAt < now then
        (store.del email, ⟨400, "OTP has expired", none, none⟩)
      else if 3 ≤ r.attempts then
        (store.del email, ⟨400, "Too many failed attempts. Please request a new OTP.", none, none⟩)
      else if r.otp ≠ otp then
        (store.set email ⟨r.otp, r.expiresAt, r.attempts + 1⟩,
          ⟨400, "Invalid OTP", none, none⟩)
      else
        match auth with
        | some token =>
          (store.del email, ⟨200, "OTP verified successfully", none, some token⟩)
        | none => (store, ⟨500, "Failed to create authentication token", none, none⟩)

/-! ### Document-store primitives (Firestore array and lookup operations) -/

/-- `FieldValue.arrayUnion(v)`: appends `v` unless already present. -/
def arrayUnion (l : List String) (v : String) : List String :=
  if l.contains v then l else l ++ [v]

/-- `FieldValue.arrayRemove(v)`: removes every occurrence of `v`. -/
def arrayRemove (l : List String) (v : String) : List String :=
  l.filter (fun x => x != v)

/-! ### Communities and posts (communities.js) -/

/-- A document of a community's `posts` subcollection. -/
structure Post where
  id : String
  text : String
  images : List String
  author : String
  authorName : String
  authorPhoto : String
  timestamp : Int
  likes : List String
  comments : Nat
deriving DecidableEq, Repr

/-- A document of the `communities` collection, with its `posts`
subcollection inlined. -/
structure Community where
  id : String
  name : String
  description : String
  category : String
  followers : List String
  admin : String
  postCount : Nat
  createdAt : Int
  updatedAt : Int
  posts : List Post
deriving DecidableEq, Repr

/-- `.collection('communities').doc(cid).get()`: first document with that id. -/
def findCommunity (db : List Community) (cid : String) : Option Community :=
  db.find? (fun c => c.id == cid)

/-- A document update on the community with id `cid`. -/
def updateCommunity (db : List Community) (cid : String) (f : Community → Community) :
    List Community :=
  db.map (fun c => if c.id == cid then f c else c)

/-- Response body of `POST /communities/:communityId/follow`. -/
structure FollowResponse where
  status : Nat
  message : String
  isFollowing : Option Bool
deriving DecidableEq, Repr

/-- Response body of child-resource creation routes (`{id, message}`). -/
structure CreateResponse where
  status : Nat
  message : String
  newId : Option String
deriving DecidableEq, Repr

/-- Response body carrying only `{message}`. -/
structure BasicResponse where
  status : Nat
  message : String
deriving DecidableEq, Repr

/-- `POST /communities/:communityId/follow`: toggles the caller in the
follower set and echoes the resulting state. -/
def followRoute (db : List Community) (cid uid : String) (now : Int) :
    List Community × FollowResponse :=
  match findCommunity db cid with
  | none => (db, ⟨404, "Community not found", none⟩)
  | some c =>
    if c.followers.contains uid then
      (updateCommunity db cid
        (fun x => { x with followers := arrayRemove x.followers uid, updatedAt := now }),
        ⟨200, "Unfollowed community", some false⟩)
    else
      (updateCommunity db cid
        (fun x => { x with followers := arrayUnion x.followers uid, updatedAt := now }),
        ⟨200, "Following community", some true⟩)

/-- `POST /communities/:communityId/posts`: requires a nonempty body and that
the caller follows the community; appends the post and increments
`postCount`. -/
def createPost (db : List Community) (cid uid text : String) (images : List String)
    (pid authorName authorPhoto : String) (now : Int) : List Community × CreateResponse :=
  if text = "" ∧ images = [] then
    (db, ⟨400, "Post content is required", none⟩)
  else
    match findCommunity db cid with
    | none => (db, ⟨404, "Community not found", none⟩)
    | some c =>
      if c.followers.contains uid then
        (updateCommunity db cid
          (fun x =>
            { x with
              posts := x.posts ++ [⟨pid, text, images, uid, authorName, authorPhoto, now, [], 0⟩],
              postCount := x.postCount + 1,
              updatedAt := now }),
          ⟨200, "Post created successfully", some pid⟩)
      else
        (db, ⟨403, "Must follow community to post", none⟩)

/-! ### Groups (groups.js) -/

/-- A document of the `groups` collection. -/
structure Group where
  id : String
  name : String
  description : String
  isPrivate : Bool
  members : List String
  admin : String
  createdAt : Int
  updatedAt : Int
deriving DecidableEq, Repr

/-- `.collection('groups').doc(gid).get()`: first document with that id. -/
def findGroup (db : List Group) (gid : String) : Option Group :=
  db.find? (fun g => g.id == gid)

/-- A document update on the group with id `gid`. -/
def updateGroup (db : List Group) (gid : String) (f : Group → Group) : List Group :=
  db.map (fun g => if g.id == gid then f g else g)

/-- `POST /groups/:groupId/leave`: membership is checked before the admin
check; only a non-admin member is removed. -/
def leaveRoute (db : List Group) (gid uid : String) (now : Int) :
    List Group × BasicResponse :=
  match findGroup db gid with
  | none => (db, ⟨404, "Group not found"⟩)
  | some g =>
    if !(g.members.contains uid) then
      (db, ⟨400, "Not a member of this group"⟩)
    else if g.admin = uid then
      (db, ⟨400, "Admin cannot leave the group"⟩)
    else
      (updateGroup db gid
        (fun x => { x with members := arrayRemove x.members uid, updatedAt := now }),
        ⟨200, "Successfully left group"⟩)

/-! ### Feed assembly (posts.js) -/

/-- One element of the feed response: a post annotated with its parent
community and the caller's like state. -/
structure FeedPost where
  id : String
  communityId : String
  communityName : String
  text : String
  images : List String
  author : String
  timestamp : Int
  likes : List String
  comments : Nat
  isLiked : Bool
deriving DecidableEq, Repr

/-- The push into `allPosts`: spread of the post document plus community id,
community name, and `isLiked`. -/
def toFeedPost (uid : String) (c : Community) (p : Post) : FeedPost :=
  ⟨p.id, c.id, c.name, p.text, p.images, p.author, p.timestamp, p.likes, p.comments,
    p.likes.contains uid⟩

/-- Descending-timestamp order on posts (`orderBy('timestamp', 'desc')`). -/
def postTsGe (a b : Post) : Prop := b.timestamp ≤ a.timestamp

instance : DecidableRel postTsGe :=
  fun a b => inferInstanceAs (Decidable (b.timestamp ≤ a.timestamp))

instance : IsTotal Post postTsGe := ⟨fun a b => le_total b.timestamp a.timestamp⟩

instance : IsTrans Post postTsGe := ⟨fun _ _ _ hab hbc => le_trans hbc hab⟩

/-- Descending-timestamp order on feed posts (the non-trending sort). -/
def feedTsGe (a b : FeedPost) : Prop := b.timestamp ≤ a.timestamp

instance : DecidableRel feedTsGe :=
  fun a b => inferInstanceAs (Decidable (b.timestamp ≤ a.timestamp))

instance : IsTotal FeedPost feedTsGe := ⟨fun a b => le_total b.timestamp a.timestamp⟩

instance : IsTrans FeedPost feedTsGe := ⟨fun _ _ _ hab hbc => le_trans hbc hab⟩

/-- Descending-like-count order on feed posts
(`(b.likes?.length || 0) - (a.likes?.length || 0)`). -/
def likeGe (a b : FeedPost) : Prop := b.likes.length ≤ a.likes.length

instance : DecidableRel likeGe :=
  fun a b => inferInstanceAs (Decidable (b.likes.length ≤ a.likes.length))

instance : IsTotal FeedPost likeGe := ⟨fun a b => Nat.le_total b.likes.length a.likes.length⟩

instance : IsTrans FeedPost likeGe := ⟨fun _ _ _ hab hbc => Nat.le_trans hbc hab⟩

/-- The per-community query of the feed: under `trending` restrict to the
trailing 24-hour window, order by timestamp descending, take `limit`. -/
def fetchCommunityPosts (c : Community) (filter : String) (now : Int) (lim : Nat) : List Post :=
  let base :=
    if filter = "trending" then
      c.posts.filter (fun p => decide (now - 86400000 ≤ p.timestamp))
    else
      c.posts
  (List.insertionSort postTsGe base).take lim

/-- The `for (const communityId of followedCommunityIds)` accumulation loop. -/
def collectPosts (uid filter : String) (now : Int) (lim : Nat) :
    List Community → List FeedPost
  | [] => []
  | c :: rest =>
    (fetchCommunityPosts c filter now lim).map (toFeedPost uid c)
      ++ collectPosts uid filter now lim rest

/-- `GET /posts/feed`: fetch followed communities, accumulate their posts,
sort (by like count under `trending`, else by recency), then paginate with
`slice(offset, offset + limit)`. -/
def feed (db : List Community) (uid filter : String) (now : Int) (lim off : Nat) :
    List FeedPost :=
  let followed := db.filter (fun c => c.followers.contains uid)
  if followed.isEmpty then []
  else
    let allPosts := collectPosts uid filter now lim followed
    let sorted :=
      if filter = "trending" then List.insertionSort likeGe allPosts
      else List.insertionSort feedTsGe allPosts
    (sorted.drop off).take lim

/-! ### User profile (users.js) -/

/-- A document of the `users` collection: the five profile fields the route
writes, the server timestamp, and every other stored field (`extra`). -/
structure UserDoc where
  name : Option String
  regNo : Option String
  department : Option String
  year : Option String
  photoURL : Option String
  updatedAt : Option Int
  extra : List (String × String)
deriving DecidableEq, Repr

/-- The request body of `PUT /users/profile` as destructured by the route;
`none` is a field absent from the JSON (`undefined`). -/
structure ProfileBody where
  name : Option String
  regNo : Option String
  department : Option String
  year : Option String
  photoURL : Option String
deriving DecidableEq, Repr

/-- `PUT /users/profile`: builds `updateData` from the five destructured body
fields plus `updatedAt` with no validation of its own and calls the Document
Store update on the existing document.  The Admin SDK's `update()` rejects
`undefined` values (this backend never sets `ignoreUndefinedProperties`), so
when any destructured field is absent the update throws before writing and
the route's catch answers 500 with the document unchanged; otherwise exactly
the listed keys are overwritten and all other stored fields are untouched. -/
def updateProfile (doc : UserDoc) (body : ProfileBody) (now : Int) :
    UserDoc × BasicResponse :=
  if body.name.isNone ∨ body.regNo.isNone ∨ body.department.isNone ∨ body.year.isNone
      ∨ body.photoURL.isNone then
    (doc, ⟨500, "Failed to update profile"⟩)
  else
    (⟨body.name, body.regNo, body.department, body.year, body.photoURL, some now, doc.extra⟩,
      ⟨200, "Profile updated successfully"⟩)

/-! ### Concrete documents used by the witnesses -/

/-- A concrete community: admin `u1`, sole follower `u1`, no posts yet. -/
def demoCommunity : Community :=
  ⟨"c1", "Robotics", "Build robots together", "Technical", ["u1"], "u1", 0, 0, 0, []⟩

/-- A concrete `communities` collection. -/
def demoDb : List Community := [demoCommunity]

/-- A concrete group: admin `u1`, members `u1` and `u2`. -/
def demoGroup : Group :=
  ⟨"g1", "Study", "Weekly study group", false, ["u1", "u2"], "u1", 0, 0⟩

/-- A concrete `groups` collection. -/
def demoGroupDb : List Group := [demoGroup]

/-- A concrete stored user document with a populated profile and one field
outside the profile set. -/
def demoUserDoc : UserDoc :=
  ⟨some "Asha", some "2023115000", some "ECE", some "2", some "old.jpg", some 1,
    [("email", "x@ceg.edu")]⟩

/-! ### Facts about decimal printing, used for the OTP code shape -/

/-- The head of `Nat.toDigitsCore 10 f n acc` for `0 < n < 10 ^ f` is the
digit character of the leading (hence nonzero) decimal digit of `n`. -/
theorem toDigitsCore_head (f : Nat) : ∀ (n : Nat) (acc : List Char), 0 < n → n < 10 ^ f →
    ∃ d, 0 < d ∧ d < 10 ∧ (Nat.toDigitsCore 10 f n acc).head? = some (Nat.digitChar d) := by
  induction f with
  | zero =>
    intro n acc hn hlt
    simp only [pow_zero, Nat.lt_one_iff] at hlt
    omega
  | succ f ih =>
    intro n acc hn hlt
    show ∃ d, 0 < d ∧ d < 10 ∧
      ((if n / 10 = 0 then Nat.digitChar (n % 10) :: acc
        else Nat.toDigitsCore 10 f (n / 10) (Nat.digitChar (n % 10) :: acc)).head? =
        some (Nat.digitChar d))
    by_cases h : n / 10 = 0
    · have hn10 : n < 10 := by omega
      refine ⟨n % 10, ?_, by omega, ?_⟩
      · have : n % 10 = n := Nat.mod_eq_of_lt hn10
        omega
      · simp [h]
    · have hpos : 0 < n / 10 := Nat.pos_of_ne_zero h
      have hdiv : n / 10 < 10 ^ f := by
        have := (Nat.div_lt_iff_lt_mul (by norm_num : 0 < 10)).mpr
          (by rw [← pow_succ]; exact hlt)
        exact this
      obtain ⟨d, hd0, hd10, hh⟩ := ih (n / 10) (Nat.digitChar (n % 10) :: acc) hpos hdiv
      exact ⟨d, hd0, hd10, by simp [h, hh]⟩

/-- For positive `n`, the decimal representation `Nat.repr n` neither is empty
nor starts with the character `0`. -/
theorem repr_pos_head (n : Nat) (hn : 0 < n) :
    ∃ d, 0 < d ∧ d < 10 ∧ (Nat.repr n).data.head? = some (Nat.digitChar d) := by
  have hlt : n < 10 ^ (n + 1) :=
    lt_of_lt_of_le (Nat.lt_pow_self (by norm_num) n)
      (Nat.pow_le_pow_right (by norm_num) (Nat.le_succ n))
  obtain ⟨d, hd0, hd10, hh⟩ := toDigitsCore_head (n + 1) n [] hn hlt
  exact ⟨d, hd0, hd10, hh⟩

/-- A nonzero decimal digit does not print as the character `0`. -/
theorem digitChar_ne_zero : ∀ d, d < 10 → 0 < d → Nat.digitChar d ≠ '0' := by
  decide

/-- The generated OTP code is never the empty string. -/
theorem generateOTP_ne_empty (k : Nat) : generateOTP k ≠ "" := by
  intro h
  obtain ⟨d, _, _, hh⟩ := repr_pos_head (100000 + k) (by omega)
  have hdata : (Nat.repr (100000 + k)).data = [] := congrArg String.data h
  rw [hdata] at hh
  simp at hh

/-- A valid email is nonempty. -/
theorem validEmail_ne_empty (e : String) (h : validEmail e = true) : e ≠ "" := by
  intro he
  subst he
  exact absurd h (by decide)

/-- Shared helper: the send-then-verify flow.  After `send-otp` stores a fresh
record, a first `verify-otp` with the correct code succeeds with a token and
deletes the record, and a second identical `verify-otp` hits the
record-absent branch, which responds with HTTP 400. -/
theorem otp_flow (store : OtpStore) (now : Nat) (email : String) (k : Nat) (token : String)
    (hv : validEmail email = true) :
    (verifyOtp (sendOtp store now email k true).1 now email (generateOTP k) (some token)).2
      = ⟨200, "OTP verified successfully", none, some token⟩
    ∧ ((verifyOtp (sendOtp store now email k true).1 now email (generateOTP k) (some token)).1).get email
      = none
    ∧ (verifyOtp (verifyOtp (sendOtp store now email k true).1 now email (generateOTP k)
        (some token)).1 now email (generateOTP k) (some token)).2
      = ⟨400, "OTP not found or expired", none, none⟩ := by
  have hne : email ≠ "" := validEmail_ne_empty email hv
  have hotp : generateOTP k ≠ "" := generateOTP_ne_empty k
  have hsend : (sendOtp store now email k true).1
      = store.set email ⟨generateOTP k, now + 5 * 60 * 1000, 0⟩ := by
    simp [sendOtp, hv]
  have hget : (store.set email ⟨generateOTP k, now + 5 * 60 * 1000, 0⟩).get email
      = some ⟨generateOTP k, now + 5 * 60 * 1000, 0⟩ := by
    simp [OtpStore.set, OtpStore.get]
  have hv1 : verifyOtp (store.set email ⟨generateOTP k, now + 5 * 60 * 1000, 0⟩) now email
      (generateOTP k) (some token)
      = ((store.set email ⟨generateOTP k, now + 5 * 60 * 1000, 0⟩).del email,
        ⟨200, "OTP verified successfully", none, some token⟩) := by
    unfold verifyOtp
    rw [if_neg (by simp [hne, hotp])]
    rw [hget]
    simp only []
    rw [if_neg (by omega)]
    rw [if_neg (by omega)]
    rw [if_neg (by simp)]
  have hdel : ((store.set email ⟨generateOTP k, now + 5 * 60 * 1000, 0⟩).del email).get email
      = none := by
    simp [OtpStore.set, OtpStore.del, OtpStore.get]
  refine ⟨by rw [hsend, hv1], by rw [hsend, hv1]; exact hdel, ?_⟩
  rw [hsend, hv1]
  unfold verifyOtp
  rw [if_neg (by simp [hne, hotp])]
  rw [hdel]

/-! ### Claim theorems for the OTP issuer -/

/-- C1 (amended): for every valid email, `send-otp` followed by `verify-otp`
with the correct code succeeds (returns the minted token) and deletes the
stored record; a second `verify-otp` with the same email and code thereafter
fails with the record-absent error "OTP not found or expired" at HTTP 400
(the handler maps the absent record to status 400, not 404). -/
theorem otp_single_use (store : OtpStore) (now : Nat) (email : String) (k : Nat) (token : String)
    (hv : validEmail email = true) :
    (verifyOtp (sendOtp store now email k true).1 now email (generateOTP k) (some token)).2
      = ⟨200, "OTP verified successfully", none, some token⟩
    ∧ ((verifyOtp (sendOtp store now email k true).1 now email (generateOTP k) (some token)).1).get email
      = none
    ∧ (verifyOtp (verifyOtp (sendOtp store now email k true).1 now email (generateOTP k)
        (some token)).1 now email (generateOTP k) (some token)).2
      = ⟨400, "OTP not found or expired", none, none⟩ :=
  otp_flow store now email k token hv

/-- C1 witness: the flow at the spec's concrete scenario inputs. -/
theorem otp_single_use_witness :
    validEmail "x@ceg.edu" = true
    ∧ ((verifyOtp (sendOtp emptyStore 0 "x@ceg.edu" 383920 true).1 0 "x@ceg.edu"
          (generateOTP 383920) (some "tok")).2
        = ⟨200, "OTP verified successfully", none, some "tok"⟩
      ∧ ((verifyOtp (sendOtp emptyStore 0 "x@ceg.edu" 383920 true).1 0 "x@ceg.edu"
          (generateOTP 383920) (some "tok")).1).get "x@ceg.edu" = none
      ∧ (verifyOtp (verifyOtp (sendOtp emptyStore 0 "x@ceg.edu" 383920 true).1 0 "x@ceg.edu"
          (generateOTP 383920) (some "tok")).1 0 "x@ceg.edu" (generateOTP 383920) (some "tok")).2
        = ⟨400, "OTP not found or expired", none, none⟩) :=
  ⟨by decide, otp_single_use emptyStore 0 "x@ceg.edu" 383920 "tok" (by decide)⟩

/-- C1 counterexample: at the concrete scenario the second `verify-otp` with
the same email and correct code responds with status 400, not 404, so the
claim's `NotFound → 404` reading is false on the code. -/
theorem otp_second_verify_not_404 :
    (verifyOtp (verifyOtp (sendOtp emptyStore 0 "x@ceg.edu" 383920 true).1 0 "x@ceg.edu"
        (generateOTP 383920) (some "tok")).1 0 "x@ceg.edu" (generateOTP 383920) (some "tok")).2.status
      = 400
    ∧ (verifyOtp (verifyOtp (sendOtp emptyStore 0 "x@ceg.edu" 383920 true).1 0 "x@ceg.edu"
        (generateOTP 383920) (some "tok")).1 0 "x@ceg.edu" (generateOTP 383920) (some "tok")).2.status
      ≠ 404 := by
  have h := (otp_flow emptyStore 0 "x@ceg.edu" 383920 "tok" (by decide)).2.2
  rw [h]
  exact ⟨rfl, by decide⟩

/-- Shared helper: a wrong code below the attempt limit increments the
persisted counter, keeps the record, and answers "Invalid OTP". -/
theorem verify_wrong_step (store : OtpStore) (now : Nat) (email code wrong : String)
    (exp a : Nat) (auth : Option String)
    (hget : store.get email = some ⟨code, exp, a⟩)
    (hemail : email ≠ "") (hwrong : wrong ≠ "") (hne : wrong ≠ code)
    (hexp : now ≤ exp) (ha : a < 3) :
    verifyOtp store now email wrong auth
      = (store.set email ⟨code, exp, a + 1⟩, ⟨400, "Invalid OTP", none, none⟩) := by
  unfold verifyOtp
  rw [if_neg (by simp [hemail, hwrong])]
  rw [hget]
  simp only []
  rw [if_neg (by omega)]
  rw [if_neg (by omega)]
  rw [if_pos (fun h => hne h.symm)]

/-- Shared helper: once three failed attempts are recorded, any further
verify call with nonempty inputs deletes the record and answers
"Too many failed attempts". -/
theorem verify_exhausted_step (store : OtpStore) (now : Nat) (email otp code : String)
    (exp : Nat) (auth : Option String)
    (hget : store.get email = some ⟨code, exp, 3⟩)
    (hemail : email ≠ "") (hotp : otp ≠ "")
    (hexp : now ≤ exp) :
    verifyOtp store now email otp auth
      = (store.del email,
        ⟨400, "Too many failed attempts. Please request a new OTP.", none, none⟩) := by
  unfold verifyOtp
  rw [if_neg (by simp [hemail, hotp])]
  rw [hget]
  simp only []
  rw [if_neg (by omega)]
  rw [if_pos (by omega)]

/-- C2: starting from a stored record with `attempts = 0`, three verify calls
with a wrong code each answer "Invalid OTP", keep the record, and persist the
incremented counter; the fourth call with the correct code is rejected with
"Too many failed attempts" and deletes the record. -/
theorem otp_attempt_limit (store : OtpStore) (now : Nat) (email code wrong : String)
    (exp : Nat) (auth : Option String)
    (hget : store.get email = some ⟨code, exp, 0⟩)
    (hemail : email ≠ "") (hcode : code ≠ "") (hwrong : wrong ≠ "") (hne : wrong ≠ code)
    (hexp : now ≤ exp) :
    (verifyOtp store now email wrong auth).2 = ⟨400, "Invalid OTP", none, none⟩
    ∧ ((verifyOtp store now email wrong auth).1).get email = some ⟨code, exp, 1⟩
    ∧ (verifyOtp (verifyOtp store now email wrong auth).1 now email wrong auth).2
      = ⟨400, "Invalid OTP", none, none⟩
    ∧ ((verifyOtp (verifyOtp store now email wrong auth).1 now email wrong auth).1).get email
      = some ⟨code, exp, 2⟩
    ∧ (verifyOtp (verifyOtp (verifyOtp store now email wrong auth).1 now email wrong auth).1
        now email wrong auth).2 = ⟨400, "Invalid OTP", none, none⟩
    ∧ ((verifyOtp (verifyOtp (verifyOtp store now email wrong auth).1 now email wrong auth).1
        now email wrong auth).1).get email = some ⟨code, exp, 3⟩
    ∧ (verifyOtp ((verifyOtp (verifyOtp (verifyOtp store now email wrong auth).1 now email
        wrong auth).1 now email wrong auth).1) now email code auth).2
      = ⟨400, "Too many failed attempts. Please request a new OTP.", none, none⟩
    ∧ ((verifyOtp ((verifyOtp (verifyOtp (verifyOtp store now email wrong auth).1 now email
        wrong auth).1 now email wrong auth).1) now email code auth).1).get email = none := by
  have hset : ∀ (s : OtpStore) (r : OtpRecord), (s.set email r).get email = some r := by
    intro s r
    simp [OtpStore.set, OtpStore.get]
  have h1 := verify_wrong_step store now email code wrong exp 0 auth hget hemail hwrong hne hexp
    (by omega)
  have h2 := verify_wrong_step (store.set email ⟨code, exp, 1⟩) now email code wrong exp 1 auth
    (hset _ _) hemail hwrong hne hexp (by omega)
  have h3 := verify_wrong_step ((store.set email ⟨code, exp, 1⟩).set email ⟨code, exp, 2⟩) now
    email code wrong exp 2 auth (hset _ _) hemail hwrong hne hexp (by omega)
  have h4 := verify_exhausted_step (((store.set email ⟨code, exp, 1⟩).set email
    ⟨code, exp, 2⟩).set email ⟨code, exp, 3⟩) now email code code exp auth (hset _ _)
    hemail hcode hexp
  refine ⟨by rw [h1], by rw [h1]; exact hset _ _, ?_, ?_, ?_, ?_, ?_, ?_⟩
  · rw [h1]
    simp only []
    rw [h2]
  · rw [h1]
    simp only []
    rw [h2]
    exact hset _ _
  · rw [h1]
    simp only []
    rw [h2]
    simp only []
    rw [h3]
  · rw [h1]
    simp only []
    rw [h2]
    simp only []
    rw [h3]
    exact hset _ _
  · rw [h1]
    simp only []
    rw [h2]
    simp only []
    rw [h3]
    simp only []
    rw [h4]
  · rw [h1]
    simp only []
    rw [h2]
    simp only []
    rw [h3]
    simp only []
    rw [h4]
    simp [OtpStore.set, OtpStore.del, OtpStore.get]

/-- C2 witness: the chain at concrete inputs, with the stored code `483920`
and wrong guess `000000` from the spec's scenario. -/
theorem otp_attempt_limit_witness :
    ((emptyStore.set "x@ceg.edu" ⟨"483920", 300000, 0⟩).get "x@ceg.edu"
        = some ⟨"483920", 300000, 0⟩
      ∧ "x@ceg.edu" ≠ "" ∧ "483920" ≠ "" ∧ "000000" ≠ "" ∧ "000000" ≠ "483920" ∧ 0 ≤ 300000)
    ∧ ((verifyOtp (emptyStore.set "x@ceg.edu" ⟨"483920", 300000, 0⟩) 0 "x@ceg.edu" "000000"
          none).2 = ⟨400, "Invalid OTP", none, none⟩
      ∧ ((verifyOtp (emptyStore.set "x@ceg.edu" ⟨"483920", 300000, 0⟩) 0 "x@ceg.edu" "000000"
          none).1).get "x@ceg.edu" = some ⟨"483920", 300000, 1⟩
      ∧ (verifyOtp (verifyOtp (emptyStore.set "x@ceg.edu" ⟨"483920", 300000, 0⟩) 0 "x@ceg.edu"
          "000000" none).1 0 "x@ceg.edu" "000000" none).2 = ⟨400, "Invalid OTP", none, none⟩
      ∧ ((verifyOtp (verifyOtp (emptyStore.set "x@ceg.edu" ⟨"483920", 300000, 0⟩) 0 "x@ceg.edu"
          "000000" none).1 0 "x@ceg.edu" "000000" none).1).get "x@ceg.edu"
        = some ⟨"483920", 300000, 2⟩
      ∧ (verifyOtp (verifyOtp (verifyOtp (emptyStore.set "x@ceg.edu" ⟨"483920", 300000, 0⟩) 0
          "x@ceg.edu" "000000" none).1 0 "x@ceg.edu" "000000" none).1 0 "x@ceg.edu" "000000"
          none).2 = ⟨400, "Invalid OTP", none, none⟩
      ∧ ((verifyOtp (verifyOtp (verifyOtp (emptyStore.set "x@ceg.edu" ⟨"483920", 300000, 0⟩) 0
          "x@ceg.edu" "000000" none).1 0 "x@ceg.edu" "000000" none).1 0 "x@ceg.edu" "000000"
          none).1).get "x@ceg.edu" = some ⟨"483920", 300000, 3⟩
      ∧ (verifyOtp ((verifyOtp (verifyOtp (verifyOtp (emptyStore.set "x@ceg.edu"
          ⟨"483920", 300000, 0⟩) 0 "x@ceg.edu" "000000" none).1 0 "x@ceg.edu" "000000" none).1 0
          "x@ceg.edu" "000000" none).1) 0 "x@ceg.edu" "483920" none).2
        = ⟨400, "Too many failed attempts. Please request a new OTP.", none, none⟩
      ∧ ((verifyOtp ((verifyOtp (verifyOtp (verifyOtp (emptyStore.set "x@ceg.edu"
          ⟨"483920", 300000, 0⟩) 0 "x@ceg.edu" "000000" none).1 0 "x@ceg.edu" "000000" none).1 0
          "x@ceg.edu" "000000" none).1) 0 "x@ceg.edu" "483920" none).1).get "x@ceg.edu"
        = none) :=
  ⟨⟨by simp [OtpStore.set, OtpStore.get, emptyStore], by decide, by decide, by decide,
      by decide, by decide⟩,
    otp_attempt_limit (emptyStore.set "x@ceg.edu" ⟨"483920", 300000, 0⟩) 0 "x@ceg.edu" "483920"
      "000000" 300000 none (by simp [OtpStore.set, OtpStore.get, emptyStore]) (by decide)
      (by decide) (by decide) (by decide) (by decide)⟩

/-- C3 counterexample: the fixed-width string "000000" is not a possible
output of `generateOTP`, so the claimed range of all `10 ^ 6` six-character
decimal strings (leading zeros included) is wrong. -/
theorem generateOTP_misses_000000 :
    ¬ ∃ k, k < 900000 ∧ generateOTP k = "000000" := by
  rintro ⟨k, -, h⟩
  obtain ⟨d, hd0, hd10, hh⟩ := repr_pos_head (100000 + k) (by omega)
  have hdata : (Nat.repr (100000 + k)).data = "000000".data := congrArg String.data h
  rw [hdata] at hh
  have h0 : ("000000".data.head?) = some '0' := rfl
  rw [h0] at hh
  exact digitChar_ne_zero d hd10 hd0 (Option.some.inj hh).symm

/-- C3 (amended): every generated code is the plain decimal representation of
a number in `[100000, 999999]` (six digits, no leading zero), and conversely
every such representation is produced by some admissible random seed. -/
theorem generateOTP_range (k : Nat) (hk : k < 900000) :
    (∃ n, 100000 ≤ n ∧ n ≤ 999999 ∧ generateOTP k = Nat.repr n)
    ∧ (∀ n, 100000 ≤ n → n ≤ 999999 → ∃ k', k' < 900000 ∧ generateOTP k' = Nat.repr n) := by
  constructor
  · exact ⟨100000 + k, by omega, by omega, rfl⟩
  · intro n h1 h2
    exact ⟨n - 100000, by omega, congrArg Nat.repr (by omega)⟩

/-- C3 witness: the characterization applied at the scenario seed. -/
theorem generateOTP_range_witness :
    383920 < 900000
    ∧ ((∃ n, 100000 ≤ n ∧ n ≤ 999999 ∧ generateOTP 383920 = Nat.repr n)
      ∧ (∀ n, 100000 ≤ n → n ≤ 999999 → ∃ k', k' < 900000 ∧ generateOTP k' = Nat.repr n)) :=
  ⟨by decide, generateOTP_range 383920 (by decide)⟩

/-- C8: for every valid email, the `send-otp` success body is the constant
`{message: "OTP sent successfully", expiresIn: 300}` — it carries the expiry
window in seconds, no token, and no field derived from the generated code, so
two runs differing only in the random seed have identical responses. -/
theorem send_otp_code_free (store : OtpStore) (now : Nat) (email : String) (k1 k2 : Nat)
    (hv : validEmail email = true) :
    (sendOtp store now email k1 true).2 = ⟨200, "OTP sent successfully", some 300, none⟩
    ∧ (sendOtp store now email k1 true).2 = (sendOtp store now email k2 true).2 := by
  constructor <;> simp [sendOtp, hv]

/-- C8 witness: two sends with different seeds at a concrete email. -/
theorem send_otp_code_free_witness :
    validEmail "x@ceg.edu" = true
    ∧ ((sendOtp emptyStore 0 "x@ceg.edu" 0 true).2
        = ⟨200, "OTP sent successfully", some 300, none⟩
      ∧ (sendOtp emptyStore 0 "x@ceg.edu" 0 true).2 = (sendOtp emptyStore 0 "x@ceg.edu" 383920
          true).2) :=
  ⟨by decide, send_otp_code_free emptyStore 0 "x@ceg.edu" 0 383920 (by decide)⟩

/-- C9: when the mail dispatch fails, `send-otp` answers a 500 server error,
yet the store has already been overwritten: the email now maps to the fresh,
never-delivered code with `attempts = 0`, invalidating any prior record. -/
theorem send_otp_mail_failure_mutates (store : OtpStore) (now : Nat) (email : String) (k : Nat)
    (hv : validEmail email = true) :
    (sendOtp store now email k false).2
      = ⟨500, "Failed to send OTP. Please try again.", none, none⟩
    ∧ (sendOtp store now email k false).1.get email
      = some ⟨generateOTP k, now + 5 * 60 * 1000, 0⟩ := by
  constructor <;> simp [sendOtp, hv, OtpStore.get, OtpStore.set]

/-- C9 witness: a failed dispatch at a concrete email still rewrites the
stored record. -/
theorem send_otp_mail_failure_mutates_witness :
    validEmail "x@ceg.edu" = true
    ∧ ((sendOtp emptyStore 7 "x@ceg.edu" 383920 false).2
        = ⟨500, "Failed to send OTP. Please try again.", none, none⟩
      ∧ (sendOtp emptyStore 7 "x@ceg.edu" 383920 false).1.get "x@ceg.edu"
        = some ⟨generateOTP 383920, 7 + 5 * 60 * 1000, 0⟩) :=
  ⟨by decide, send_otp_mail_failure_mutates emptyStore 7 "x@ceg.edu" 383920 (by decide)⟩

/-! ### Document-store lookup lemmas -/

/-- `Array.includes` via `List.contains` agrees with membership. -/
theorem contains_eq_decide_mem (l : List String) (v : String) :
    l.contains v = decide (v ∈ l) := by
  simp [List.contains]

/-- A lookup after an id-preserving update returns the updated document. -/
theorem findCommunity_update (db : List Community) (cid : String) (f : Community → Community)
    (hf : ∀ x, (f x).id = x.id) :
    findCommunity (updateCommunity db cid f) cid = (findCommunity db cid).map f := by
  induction db with
  | nil => rfl
  | cons c rest ih =>
    show List.find? (fun x => x.id == cid)
        ((if c.id == cid then f c else c) :: updateCommunity rest cid f)
      = (List.find? (fun x => x.id == cid) (c :: rest)).map f
    cases h : (c.id == cid) with
    | true =>
      rw [if_pos rfl]
      have h1 : List.find? (fun x => x.id == cid) (f c :: updateCommunity rest cid f)
          = some (f c) :=
        List.find?_cons_of_pos _ (by rw [hf]; exact h)
      have h2 : List.find? (fun x => x.id == cid) (c :: rest) = some c :=
        List.find?_cons_of_pos _ h
      rw [h1, h2]
      rfl
    | false =>
      rw [if_neg (by simp [h])]
      have h1 : List.find? (fun x => x.id == cid) (c :: updateCommunity rest cid f)
          = List.find? (fun x => x.id == cid) (updateCommunity rest cid f) :=
        List.find?_cons_of_neg _ (by simp [h])
      have h2 : List.find? (fun x => x.id == cid) (c :: rest)
          = List.find? (fun x => x.id == cid) rest :=
        List.find?_cons_of_neg _ (by simp [h])
      rw [h1, h2]
      exact ih

/-- A lookup after an id-preserving update returns the updated document. -/
theorem findGroup_update (db : List Group) (gid : String) (f : Group → Group)
    (hf : ∀ x, (f x).id = x.id) :
    findGroup (updateGroup db gid f) gid = (findGroup db gid).map f := by
  induction db with
  | nil => rfl
  | cons g rest ih =>
    show List.find? (fun x => x.id == gid)
        ((if g.id == gid then f g else g) :: updateGroup rest gid f)
      = (List.find? (fun x => x.id == gid) (g :: rest)).map f
    cases h : (g.id == gid) with
    | true =>
      rw [if_pos rfl]
      have h1 : List.find? (fun x => x.id == gid) (f g :: updateGroup rest gid f)
          = some (f g) :=
        List.find?_cons_of_pos _ (by rw [hf]; exact h)
      have h2 : List.find? (fun x => x.id == gid) (g :: rest) = some g :=
        List.find?_cons_of_pos _ h
      rw [h1, h2]
      rfl
    | false =>
      rw [if_neg (by simp [h])]
      have h1 : List.find? (fun x => x.id == gid) (g :: updateGroup rest gid f)
          = List.find? (fun x => x.id == gid) (updateGroup rest gid f) :=
        List.find?_cons_of_neg _ (by simp [h])
      have h2 : List.find? (fun x => x.id == gid) (g :: rest)
          = List.find? (fun x => x.id == gid) rest :=
        List.find?_cons_of_neg _ (by simp [h])
      rw [h1, h2]
      exact ih

/-- Membership in `arrayRemove`. -/
theorem mem_arrayRemove (l : List String) (v x : String) :
    x ∈ arrayRemove l v ↔ x ∈ l ∧ x ≠ v := by
  simp [arrayRemove, List.mem_filter]

/-- `arrayRemove` removes the value completely. -/
theorem arrayRemove_contains_self (l : List String) (v : String) :
    (arrayRemove l v).contains v = false := by
  rw [contains_eq_decide_mem]
  simp [mem_arrayRemove]

/-- `arrayUnion` on a list not containing the value appends it. -/
theorem arrayUnion_of_not_mem (l : List String) (v : String) (h : v ∉ l) :
    arrayUnion l v = l ++ [v] := by
  unfold arrayUnion
  rw [if_neg (by rw [contains_eq_decide_mem]; simpa using h)]

/-- Membership in `arrayUnion`. -/
theorem mem_arrayUnion (l : List String) (v x : String) :
    x ∈ arrayUnion l v ↔ x ∈ l ∨ x = v := by
  unfold arrayUnion
  by_cases h : l.contains v = true
  · rw [if_pos h]
    have hv : v ∈ l := by
      rw [contains_eq_decide_mem] at h
      simpa using h
    constructor
    · exact Or.inl
    · rintro (hx | rfl)
      · exact hx
      · exact hv
  · rw [if_neg h]
    simp [List.mem_append]

/-! ### Claim theorem for the follow toggle -/

/-- The unfollow branch of the follow route. -/
theorem followRoute_found_mem (db : List Community) (cid uid : String) (now : Int)
    (c : Community) (hc : findCommunity db cid = some c)
    (hcont : c.followers.contains uid = true) :
    followRoute db cid uid now
      = (updateCommunity db cid
          (fun x => { x with followers := arrayRemove x.followers uid, updatedAt := now }),
        ⟨200, "Unfollowed community", some false⟩) := by
  unfold followRoute
  rw [hc]
  simp only []
  rw [if_pos hcont]

/-- The follow branch of the follow route. -/
theorem followRoute_found_not_mem (db : List Community) (cid uid : String) (now : Int)
    (c : Community) (hc : findCommunity db cid = some c)
    (hcont : c.followers.contains uid = false) :
    followRoute db cid uid now
      = (updateCommunity db cid
          (fun x => { x with followers := arrayUnion x.followers uid, updatedAt := now }),
        ⟨200, "Following community", some true⟩) := by
  unfold followRoute
  rw [hc]
  simp only []
  rw [if_neg (by rw [hcont]; simp)]

/-- Lookup after the arrayRemove update. -/
theorem findCommunity_update_rm (db : List Community) (cid uid : String) (now : Int) :
    findCommunity (updateCommunity db cid
        (fun x => { x with followers := arrayRemove x.followers uid, updatedAt := now })) cid
      = (findCommunity db cid).map
        (fun x => { x with followers := arrayRemove x.followers uid, updatedAt := now }) :=
  findCommunity_update db cid _ (fun _ => rfl)

/-- Lookup after the arrayUnion update. -/
theorem findCommunity_update_un (db : List Community) (cid uid : String) (now : Int) :
    findCommunity (updateCommunity db cid
        (fun x => { x with followers := arrayUnion x.followers uid, updatedAt := now })) cid
      = (findCommunity db cid).map
        (fun x => { x with followers := arrayUnion x.followers uid, updatedAt := now }) :=
  findCommunity_update db cid _ (fun _ => rfl)

/-- C7: toggling follow twice restores the follower set up to membership and
restores the reported `isFollowing` flag, and each toggle's response echoes
the caller's resulting membership in the follower set. -/
theorem community_follow_double_toggle (db : List Community) (cid uid : String)
    (now now2 : Int) (c : Community) (hc : findCommunity db cid = some c) :
    ∃ c1 c2,
      findCommunity (followRoute db cid uid now).1 cid = some c1
      ∧ findCommunity (followRoute (followRoute db cid uid now).1 cid uid now2).1 cid = some c2
      ∧ (∀ x, x ∈ c2.followers ↔ x ∈ c.followers)
      ∧ (followRoute db cid uid now).2.isFollowing = some (c1.followers.contains uid)
      ∧ (followRoute (followRoute db cid uid now).1 cid uid now2).2.isFollowing
        = some (c2.followers.contains uid)
      ∧ c2.followers.contains uid = c.followers.contains uid := by
  by_cases hmem : uid ∈ c.followers
  · have hcont : c.followers.contains uid = true := by
      rw [contains_eq_decide_mem]
      simpa using hmem
    have step1 := followRoute_found_mem db cid uid now c hc hcont
    have find1 : findCommunity (followRoute db cid uid now).1 cid
        = some { c with followers := arrayRemove c.followers uid, updatedAt := now } := by
      rw [step1]
      show findCommunity (updateCommunity db cid
        (fun x => { x with followers := arrayRemove x.followers uid, updatedAt := now })) cid = _
      rw [findCommunity_update_rm, hc]
      rfl
    have hcont1 : (arrayRemove c.followers uid).contains uid = false :=
      arrayRemove_contains_self _ _
    have step2 := followRoute_found_not_mem (followRoute db cid uid now).1 cid uid now2
      { c with followers := arrayRemove c.followers uid, updatedAt := now } find1 hcont1
    have find2 : findCommunity (followRoute (followRoute db cid uid now).1 cid uid now2).1 cid
        = some { c with
            followers := arrayUnion (arrayRemove c.followers uid) uid
            updatedAt := now2 } := by
      rw [step2]
      show findCommunity (updateCommunity (followRoute db cid uid now).1 cid
        (fun x => { x with followers := arrayUnion x.followers uid, updatedAt := now2 })) cid = _
      rw [findCommunity_update_un, find1]
      rfl
    have hcont2 : (arrayUnion (arrayRemove c.followers uid) uid).contains uid = true := by
      rw [contains_eq_decide_mem]
      simp [mem_arrayUnion]
    refine ⟨_, _, find1, find2, ?_, ?_, ?_, ?_⟩
    · intro x
      show x ∈ arrayUnion (arrayRemove c.followers uid) uid ↔ x ∈ c.followers
      rw [mem_arrayUnion, mem_arrayRemove]
      constructor
      · rintro (⟨hx, -⟩ | rfl)
        · exact hx
        · exact hmem
      · intro hx
        by_cases hxu : x = uid
        · exact Or.inr hxu
        · exact Or.inl ⟨hx, hxu⟩
    · rw [step1]
      show some false = some ((arrayRemove c.followers uid).contains uid)
      rw [hcont1]
    · rw [step2]
      show some true = some ((arrayUnion (arrayRemove c.followers uid) uid).contains uid)
      rw [hcont2]
    · show (arrayUnion (arrayRemove c.followers uid) uid).contains uid
        = c.followers.contains uid
      rw [hcont2, hcont]
  · have hcont : c.followers.contains uid = false := by
      rw [contains_eq_decide_mem]
      simpa using hmem
    have step1 := followRoute_found_not_mem db cid uid now c hc hcont
    have find1 : findCommunity (followRoute db cid uid now).1 cid
        = some { c with followers := arrayUnion c.followers uid, updatedAt := now } := by
      rw [step1]
      show findCommunity (updateCommunity db cid
        (fun x => { x with followers := arrayUnion x.followers uid, updatedAt := now })) cid = _
      rw [findCommunity_update_un, hc]
      rfl
    have hcont1 : (arrayUnion c.followers uid).contains uid = true := by
      rw [contains_eq_decide_mem]
      simp [mem_arrayUnion]
    have step2 := followRoute_found_mem (followRoute db cid uid now).1 cid uid now2
      { c with followers := arrayUnion c.followers uid, updatedAt := now } find1 hcont1
    have find2 : findCommunity (followRoute (followRoute db cid uid now).1 cid uid now2).1 cid
        = some { c with
            followers := arrayRemove (arrayUnion c.followers uid) uid
            updatedAt := now2 } := by
      rw [step2]
      show findCommunity (updateCommunity (followRoute db cid uid now).1 cid
        (fun x => { x with followers := arrayRemove x.followers uid, updatedAt := now2 })) cid = _
      rw [findCommunity_update_rm, find1]
      rfl
    have hcont2 : (arrayRemove (arrayUnion c.followers uid) uid).contains uid = false :=
      arrayRemove_contains_self _ _
    refine ⟨_, _, find1, find2, ?_, ?_, ?_, ?_⟩
    · intro x
      show x ∈ arrayRemove (arrayUnion c.followers uid) uid ↔ x ∈ c.followers
      rw [mem_arrayRemove, mem_arrayUnion]
      constructor
      · rintro ⟨hx | rfl, hxu⟩
        · exact hx
        · exact absurd rfl hxu
      · intro hx
        refine ⟨Or.inl hx, ?_⟩
        intro hxu
        subst hxu
        exact hmem hx
    · rw [step1]
      show some true = some ((arrayUnion c.followers uid).contains uid)
      rw [hcont1]
    · rw [step2]
      show some false = some ((arrayRemove (arrayUnion c.followers uid) uid).contains uid)
      rw [hcont2]
    · show (arrayRemove (arrayUnion c.followers uid) uid).contains uid
        = c.followers.contains uid
      rw [hcont2, hcont]

/-- C7 witness: double toggle by the fresh user `u2` on the concrete
community. -/
theorem community_follow_double_toggle_witness :
    findCommunity demoDb "c1" = some demoCommunity
    ∧ (∃ c1 c2,
        findCommunity (followRoute demoDb "c1" "u2" 3).1 "c1" = some c1
        ∧ findCommunity (followRoute (followRoute demoDb "c1" "u2" 3).1 "c1" "u2" 4).1 "c1"
          = some c2
        ∧ (∀ x, x ∈ c2.followers ↔ x ∈ demoCommunity.followers)
        ∧ (followRoute demoDb "c1" "u2" 3).2.isFollowing = some (c1.followers.contains "u2")
        ∧ (followRoute (followRoute demoDb "c1" "u2" 3).1 "c1" "u2" 4).2.isFollowing
          = some (c2.followers.contains "u2")
        ∧ c2.followers.contains "u2" = demoCommunity.followers.contains "u2") :=
  ⟨by decide, community_follow_double_toggle demoDb "c1" "u2" 3 4 demoCommunity (by decide)⟩

/-! ### Claim theorem for post creation -/

/-- The forbidden branch of post creation: a non-follower gets 403 and no
write happens. -/
theorem createPost_not_follower (db : List Community) (cid uid text : String)
    (images : List String) (pid authorName authorPhoto : String) (now : Int) (c : Community)
    (hbody : ¬(text = "" ∧ images = [])) (hc : findCommunity db cid = some c)
    (hcont : c.followers.contains uid = false) :
    createPost db cid uid text images pid authorName authorPhoto now
      = (db, ⟨403, "Must follow community to post", none⟩) := by
  unfold createPost
  rw [if_neg hbody]
  rw [hc]
  simp only []
  rw [if_neg (by rw [hcont]; simp)]

/-- The success branch of post creation: a follower's post is appended and
`postCount` incremented. -/
theorem createPost_follower (db : List Community) (cid uid text : String)
    (images : List String) (pid authorName authorPhoto : String) (now : Int) (c : Community)
    (hbody : ¬(text = "" ∧ images = [])) (hc : findCommunity db cid = some c)
    (hcont : c.followers.contains uid = true) :
    createPost db cid uid text images pid authorName authorPhoto now
      = (updateCommunity db cid
          (fun x => { x with
            posts := x.posts ++ [⟨pid, text, images, uid, authorName, authorPhoto, now, [], 0⟩]
            postCount := x.postCount + 1
            updatedAt := now }),
        ⟨200, "Post created successfully", some pid⟩) := by
  unfold createPost
  rw [if_neg hbody]
  rw [hc]
  simp only []
  rw [if_pos hcont]

/-- Lookup after the post-append update. -/
theorem findCommunity_update_post (db : List Community) (cid : String) (p : Post) (now : Int) :
    findCommunity (updateCommunity db cid
        (fun x => { x with
          posts := x.posts ++ [p]
          postCount := x.postCount + 1
          updatedAt := now })) cid
      = (findCommunity db cid).map
        (fun x => { x with
          posts := x.posts ++ [p]
          postCount := x.postCount + 1
          updatedAt := now }) :=
  findCommunity_update db cid _ (fun _ => rfl)

/-- C5: a caller outside the follower set cannot create a post (403, state
unchanged); after following the community, the same post body succeeds and
increments `postCount` by exactly 1. -/
theorem community_post_follow_gate (db : List Community) (cid uid text : String)
    (images : List String) (pid authorName authorPhoto : String) (now now2 : Int)
    (c : Community) (hc : findCommunity db cid = some c) (hnf : uid ∉ c.followers)
    (hbody : ¬(text = "" ∧ images = [])) :
    createPost db cid uid text images pid authorName authorPhoto now
      = (db, ⟨403, "Must follow community to post", none⟩)
    ∧ (createPost (followRoute db cid uid now).1 cid uid text images pid authorName authorPhoto
        now2).2 = ⟨200, "Post created successfully", some pid⟩
    ∧ ∃ c', findCommunity (createPost (followRoute db cid uid now).1 cid uid text images pid
        authorName authorPhoto now2).1 cid = some c' ∧ c'.postCount = c.postCount + 1 := by
  have hcont : c.followers.contains uid = false := by
    rw [contains_eq_decide_mem]
    simpa using hnf
  have part1 := createPost_not_follower db cid uid text images pid authorName authorPhoto now c
    hbody hc hcont
  have step1 := followRoute_found_not_mem db cid uid now c hc hcont
  have find1 : findCommunity (followRoute db cid uid now).1 cid
      = some { c with followers := arrayUnion c.followers uid, updatedAt := now } := by
    rw [step1]
    show findCommunity (updateCommunity db cid
      (fun x => { x with followers := arrayUnion x.followers uid, updatedAt := now })) cid = _
    rw [findCommunity_update_un, hc]
    rfl
  have hcont1 : (arrayUnion c.followers uid).contains uid = true := by
    rw [contains_eq_decide_mem]
    simp [mem_arrayUnion]
  have step2 := createPost_follower (followRoute db cid uid now).1 cid uid text images pid
    authorName authorPhoto now2 _ hbody find1 hcont1
  refine ⟨part1, by rw [step2], ?_⟩
  rw [step2]
  show ∃ c', findCommunity (updateCommunity (followRoute db cid uid now).1 cid
      (fun x => { x with
        posts := x.posts ++ [⟨pid, text, images, uid, authorName, authorPhoto, now2, [], 0⟩]
        postCount := x.postCount + 1
        updatedAt := now2 })) cid = some c' ∧ c'.postCount = c.postCount + 1
  rw [findCommunity_update_post, find1]
  exact ⟨_, rfl, rfl⟩

/-- C5 witness: the outsider `u2` is rejected on the concrete community,
then succeeds after following, with `postCount` going from 0 to 1. -/
theorem community_post_follow_gate_witness :
    (findCommunity demoDb "c1" = some demoCommunity ∧ "u2" ∉ demoCommunity.followers
      ∧ ¬("hello" = "" ∧ ([] : List String) = []))
    ∧ (createPost demoDb "c1" "u2" "hello" [] "p1" "U Two" "" 5
        = (demoDb, ⟨403, "Must follow community to post", none⟩)
      ∧ (createPost (followRoute demoDb "c1" "u2" 5).1 "c1" "u2" "hello" [] "p1" "U Two" "" 6).2
        = ⟨200, "Post created successfully", some "p1"⟩
      ∧ ∃ c', findCommunity (createPost (followRoute demoDb "c1" "u2" 5).1 "c1" "u2" "hello" []
          "p1" "U Two" "" 6).1 "c1" = some c' ∧ c'.postCount = demoCommunity.postCount + 1) :=
  ⟨⟨by decide, by decide, by decide⟩,
    community_post_follow_gate demoDb "c1" "u2" "hello" [] "p1" "U Two" "" 5 6 demoCommunity
      (by decide) (by decide) (by decide)⟩

/-! ### Claim theorem for the trending feed -/

/-- Any post fetched under the trending filter lies in the trailing
24-hour window. -/
theorem fetch_trending_timestamp (c : Community) (now : Int) (lim : Nat) (q : Post)
    (hq : q ∈ fetchCommunityPosts c "trending" now lim) :
    now - 86400000 ≤ q.timestamp := by
  unfold fetchCommunityPosts at hq
  rw [if_pos rfl] at hq
  have h1 : q ∈ List.insertionSort postTsGe
      (c.posts.filter (fun p => decide (now - 86400000 ≤ p.timestamp))) :=
    List.take_subset _ _ hq
  rw [List.mem_insertionSort] at h1
  have h2 := List.mem_filter.mp h1
  exact of_decide_eq_true h2.2

/-- The accumulation loop only gathers posts in the trailing 24-hour window
under the trending filter. -/
theorem collect_trending_timestamp (uid : String) (now : Int) (lim : Nat) :
    ∀ (cs : List Community) (p : FeedPost), p ∈ collectPosts uid "trending" now lim cs →
      now - 86400000 ≤ p.timestamp := by
  intro cs
  induction cs with
  | nil =>
    intro p hp
    simp [collectPosts] at hp
  | cons c rest ih =>
    intro p hp
    rw [show collectPosts uid "trending" now lim (c :: rest)
        = (fetchCommunityPosts c "trending" now lim).map (toFeedPost uid c)
          ++ collectPosts uid "trending" now lim rest from rfl] at hp
    rw [List.mem_append] at hp
    rcases hp with hp | hp
    · obtain ⟨q, hq, rfl⟩ := List.mem_map.mp hp
      exact fetch_trending_timestamp c now lim q hq
    · exact ih p hp

/-- The feed is the pagination window over the sorted accumulated posts,
in the empty-followed case as well (both sides are then empty). -/
theorem feed_eq (db : List Community) (uid filter : String) (now : Int) (lim off : Nat) :
    feed db uid filter now lim off
      = ((if filter = "trending" then
            List.insertionSort likeGe
              (collectPosts uid filter now lim (db.filter (fun c => c.followers.contains uid)))
          else
            List.insertionSort feedTsGe
              (collectPosts uid filter now lim
                (db.filter (fun c => c.followers.contains uid)))).drop off).take lim := by
  unfold feed
  by_cases hemp : (db.filter (fun c => c.followers.contains uid)).isEmpty = true
  · rw [if_pos hemp]
    have hnil : db.filter (fun c => c.followers.contains uid) = [] :=
      List.isEmpty_iff.mp hemp
    rw [hnil]
    by_cases hf : filter = "trending"
    · rw [if_pos hf]
      simp [collectPosts]
    · rw [if_neg hf]
      simp [collectPosts]
  · rw [if_neg hemp]

/-- C4: every post returned by `feed` with filter `trending` is timestamped
within the trailing 24-hour window, and the returned list is sorted by
descending like-set size. -/
theorem trending_feed_window_and_sorted (db : List Community) (uid : String) (now : Int)
    (lim off : Nat) :
    (∀ p ∈ feed db uid "trending" now lim off, now - 86400000 ≤ p.timestamp)
    ∧ (feed db uid "trending" now lim off).Pairwise likeGe := by
  have heq : feed db uid "trending" now lim off
      = ((List.insertionSort likeGe
          (collectPosts uid "trending" now lim
            (db.filter (fun c => c.followers.contains uid)))).drop off).take lim := by
    rw [feed_eq]
    rw [if_pos rfl]
  constructor
  · intro p hp
    rw [heq] at hp
    have h1 : p ∈ List.insertionSort likeGe
        (collectPosts uid "trending" now lim (db.filter (fun c => c.followers.contains uid))) :=
      List.drop_subset _ _ (List.take_subset _ _ hp)
    rw [List.mem_insertionSort] at h1
    exact collect_trending_timestamp uid now lim _ p h1
  · rw [heq]
    have hs : List.Pairwise likeGe (List.insertionSort likeGe
        (collectPosts uid "trending" now lim
          (db.filter (fun c => c.followers.contains uid)))) :=
      List.sorted_insertionSort likeGe _
    exact hs.sublist ((List.take_sublist _ _).trans (List.drop_sublist _ _))

/-! ### Claim theorem for the profile route -/

/-- C10 counterexample: with the `name` field omitted from the request body
(`undefined` after destructuring), the Document Store update rejects the
value, the route answers 500, and the stored document is entirely unchanged:
the omitted field keeps its stored value `some "Asha"` instead of being
written through. -/
theorem profile_update_omitted_not_written :
    updateProfile demoUserDoc ⟨none, some "2023115001", some "CSE", some "3", some "new.jpg"⟩ 11
      = (demoUserDoc, ⟨500, "Failed to update profile"⟩)
    ∧ (updateProfile demoUserDoc
        ⟨none, some "2023115001", some "CSE", some "3", some "new.jpg"⟩ 11).1.name
      = some "Asha" := by
  constructor <;> rfl

/-- C10 (amended): the route itself validates nothing and unconditionally
builds the update payload from the five destructured body fields plus
`updatedAt`.  When all five fields are present, exactly those keys are
overwritten with the request values and every stored field outside the set
is preserved; when any field is omitted, the Document Store update rejects
the `undefined` value, the route answers 500, and the stored document is
entirely unchanged — the omitted field is preserved, not overwritten. -/
theorem profile_update_frame (doc : UserDoc) (body : ProfileBody) (now : Int) :
    ((body.name.isSome ∧ body.regNo.isSome ∧ body.department.isSome ∧ body.year.isSome
        ∧ body.photoURL.isSome) →
      ((updateProfile doc body now).1.name = body.name
        ∧ (updateProfile doc body now).1.regNo = body.regNo
        ∧ (updateProfile doc body now).1.department = body.department
        ∧ (updateProfile doc body now).1.year = body.year
        ∧ (updateProfile doc body now).1.photoURL = body.photoURL
        ∧ (updateProfile doc body now).1.updatedAt = some now
        ∧ (updateProfile doc body now).1.extra = doc.extra
        ∧ (updateProfile doc body now).2 = ⟨200, "Profile updated successfully"⟩))
    ∧ (¬(body.name.isSome ∧ body.regNo.isSome ∧ body.department.isSome ∧ body.year.isSome
        ∧ body.photoURL.isSome) →
      updateProfile doc body now = (doc, ⟨500, "Failed to update profile"⟩)) := by
  constructor
  · intro hfull
    obtain ⟨hn, hr, hd, hy, hp⟩ := hfull
    have hcond : ¬(body.name.isNone ∨ body.regNo.isNone ∨ body.department.isNone
        ∨ body.year.isNone ∨ body.photoURL.isNone) := by
      simp only [Option.isNone_iff_eq_none]
      rintro (h | h | h | h | h) <;> simp [h] at hn hr hd hy hp
    unfold updateProfile
    rw [if_neg hcond]
    exact ⟨rfl, rfl, rfl, rfl, rfl, rfl, rfl, rfl⟩
  · intro hmiss
    have hcond : body.name.isNone ∨ body.regNo.isNone ∨ body.department.isNone
        ∨ body.year.isNone ∨ body.photoURL.isNone := by
      by_contra h
      push_neg at h
      obtain ⟨h1, h2, h3, h4, h5⟩ := h
      exact hmiss ⟨by simpa [Option.isSome_iff_ne_none] using
          Option.ne_none_iff_isSome.mp (by simpa [Option.isNone_iff_eq_none] using h1),
        by simpa [Option.isSome_iff_ne_none] using
          Option.ne_none_iff_isSome.mp (by simpa [Option.isNone_iff_eq_none] using h2),
        by simpa [Option.isSome_iff_ne_none] using
          Option.ne_none_iff_isSome.mp (by simpa [Option.isNone_iff_eq_none] using h3),
        by simpa [Option.isSome_iff_ne_none] using
          Option.ne_none_iff_isSome.mp (by simpa [Option.isNone_iff_eq_none] using h4),
        by simpa [Option.isSome_iff_ne_none] using
          Option.ne_none_iff_isSome.mp (by simpa [Option.isNone_iff_eq_none] using h5)⟩
    unfold updateProfile
    rw [if_pos hcond]

/-- C10 witness: a fully populated body at the concrete stored document
exercises the success branch — the five fields are overwritten, the `extra`
field survives, and the response is 200. -/
theorem profile_update_frame_witness :
    (updateProfile demoUserDoc
        ⟨some "Asha", some "2023115001", some "CSE", some "3", some "new.jpg"⟩ 11).1.extra
      = demoUserDoc.extra
    ∧ (updateProfile demoUserDoc
        ⟨some "Asha", some "2023115001", some "CSE", some "3", some "new.jpg"⟩ 11).2
      = ⟨200, "Profile updated successfully"⟩ := by
  have h := (profile_update_frame demoUserDoc
    ⟨some "Asha", some "2023115001", some "CSE", some "3", some "new.jpg"⟩ 11).1
    (by simp)
  exact ⟨h.2.2.2.2.2.2.1, h.2.2.2.2.2.2.2⟩

/-! ### Claim theorem for group leave -/

/-- C6: on a group satisfying the data-model invariant `admin ∈ members`,
a leave call by the admin always fails "Admin cannot leave the group" with
the collection unchanged, whatever the member count; a leave call by a
caller outside the member set fails "Not a member of this group", also with
the collection unchanged. -/
theorem group_admin_cannot_leave (db : List Group) (gid uid : String) (now : Int) (g : Group)
    (hg : findGroup db gid = some g) (hinv : g.admin ∈ g.members) :
    (uid = g.admin → leaveRoute db gid uid now = (db, ⟨400, "Admin cannot leave the group"⟩))
    ∧ (uid ∉ g.members →
        leaveRoute db gid uid now = (db, ⟨400, "Not a member of this group"⟩)) := by
  constructor
  · intro huid
    subst huid
    unfold leaveRoute
    rw [hg]
    simp only []
    rw [if_neg (by simpa using hinv)]
    simp
  · intro hout
    unfold leaveRoute
    rw [hg]
    simp only []
    rw [if_pos (by simpa using hout)]

/-- C6 witness: on the concrete group, the admin `u1` is always rejected
with "Admin cannot leave the group". -/
theorem group_admin_cannot_leave_witness :
    (findGroup demoGroupDb "g1" = some demoGroup ∧ demoGroup.admin ∈ demoGroup.members)
    ∧ (("u1" = demoGroup.admin →
          leaveRoute demoGroupDb "g1" "u1" 9
            = (demoGroupDb, ⟨400, "Admin cannot leave the group"⟩))
      ∧ ("u1" ∉ demoGroup.members →
          leaveRoute demoGroupDb "g1" "u1" 9
            = (demoGroupDb, ⟨400, "Not a member of this group"⟩))) :=
  ⟨⟨by decide, by decide⟩,
    group_admin_cannot_leave demoGroupDb "g1" "u1" 9 demoGroup (by decide) (by decide)⟩

end Ceg
